import Mathlib

/-!
Verification development for the recurring-schedule engine of the pulp
repository (`pulp.server.db.model.dispatch`: `ScheduledCall` and
`ScheduleEntry`).  The implementation module itself is not part of the
source excerpt; only its unit test file
`server/test/unit/server/db/model/test_dispatch.py` is.  The definitions
below are therefore modelled from the specification of the schedule
engine, and every point that the unit tests pin down (concrete epochs,
due flags, remaining-seconds values, tuple elements of
`_calculate_times`) is reproduced exactly as the tests demand.

Modelling conventions:
* timestamps and durations are rational numbers of seconds since the Unix
  epoch (the code uses POSIX floats; the tests only ever need exact
  decimal fractions, which `ℚ` represents exactly);
* the pickled celery schedule blob is modelled by its semantic content,
  a `CelerySchedule` value holding `run_every` seconds and the
  `relative` flag;
* ISO 8601 strings are parsed by an executable parser over `List Char`
  mirroring the grammar `[R<n>/]<start>/<period>` or `[R<n>/]<period>`.
-/

attribute [local semireducible] Rat.add Rat.sub Rat.mul Rat.inv

namespace Pulp

/-- Splits a character list on a separator character; the separator is
dropped.  Models the `str.split('/')`-style tokenisation used when
parsing ISO 8601 interval expressions. -/
def splitOnChar (sep : Char) : List Char → List (List Char)
  | [] => [[]]
  | c :: rest =>
    let r := splitOnChar sep rest
    if c = sep then [] :: r
    else
      match r with
      | [] => [[c]]
      | g :: gs => (c :: g) :: gs

/-- Numeric value of a decimal digit character, if it is one. -/
def digitVal (c : Char) : Option Nat :=
  if c.isDigit then some (c.toNat - 48) else none

/-- Accumulating parser for a run of decimal digits. -/
def digitsToNatAux : List Char → Nat → Option Nat
  | [], acc => some acc
  | c :: rest, acc => do
    let d ← digitVal c
    digitsToNatAux rest (acc * 10 + d)

/-- Parses a non-empty run of decimal digits as a natural number. -/
def digitsToNat (cs : List Char) : Option Nat :=
  if cs.isEmpty then none else digitsToNatAux cs 0

/-- Parses a sequence of `<digits><unit-letter>` components, e.g. the
`1H30M` part of an ISO 8601 duration.  The fuel argument bounds the
recursion by the length of the input. -/
def parseUnits : Nat → List Char → Option (List (Nat × Char))
  | _, [] => some []
  | 0, _ :: _ => none
  | Nat.succ fuel, cs => do
    let ds := cs.takeWhile Char.isDigit
    let rest := cs.dropWhile Char.isDigit
    if ds.isEmpty then none
    else
      match rest with
      | [] => none
      | u :: rest2 => do
        let n ← digitsToNat ds
        let tail ← parseUnits fuel rest2
        some ((n, u) :: tail)

/-- Seconds denoted by a date-part unit letter of an ISO 8601 duration. -/
def dateUnitSeconds : Char → Option Nat
  | 'W' => some 604800
  | 'D' => some 86400
  | _ => none

/-- Seconds denoted by a time-part unit letter of an ISO 8601 duration. -/
def timeUnitSeconds : Char → Option Nat
  | 'H' => some 3600
  | 'M' => some 60
  | 'S' => some 1
  | _ => none

/-- Sums a list of `(count, unit)` components using the given unit table. -/
def sumUnits (f : Char → Option Nat) : List (Nat × Char) → Option Nat
  | [] => some 0
  | (n, u) :: rest => do
    let s ← f u
    let r ← sumUnits f rest
    some (n * s + r)

/-- Modelled from the spec: parses an ISO 8601 duration such as `PT1M`
or `P1DT2H` into a number of seconds.  Fails (the code raises
`MalformedScheduleExpression`) when the text does not match the grammar
or when the period is zero.  Calendar-dependent units (years, months)
are outside the tested surface and are rejected. -/
def parseDurationL (cs : List Char) : Option ℚ :=
  match cs with
  | 'P' :: rest => do
    let dpart := rest.takeWhile (fun c => c ≠ 'T')
    let trest := rest.dropWhile (fun c => c ≠ 'T')
    let tpart ← match trest with
      | [] => some ([] : List Char)
      | _ :: t => if t.isEmpty then none else some t
    let du ← parseUnits dpart.length dpart
    let tu ← parseUnits tpart.length tpart
    let dsec ← sumUnits dateUnitSeconds du
    let tsec ← sumUnits timeUnitSeconds tu
    let total := dsec + tsec
    if total = 0 then none else some (total : ℚ)
  | _ => none

/-- Cumulative days before the given month (1-12) in a non-leap year. -/
def cumMonthDays : Nat → Option Nat
  | 1 => some 0
  | 2 => some 31
  | 3 => some 59
  | 4 => some 90
  | 5 => some 120
  | 6 => some 151
  | 7 => some 181
  | 8 => some 212
  | 9 => some 243
  | 10 => some 273
  | 11 => some 304
  | 12 => some 334
  | _ => none

/-- Gregorian leap-year test. -/
def isLeapYear (y : Nat) : Bool :=
  (y % 4 == 0 && y % 100 != 0) || y % 400 == 0

/-- Number of leap years strictly before year `y`. -/
def leapsBefore (y : Nat) : Nat :=
  (y - 1) / 4 - (y - 1) / 100 + (y - 1) / 400

/-- Days elapsed from 1970-01-01 to the given calendar date (UTC).
Restricted to years from 1970 on, which covers every timestamp the
schedule engine stores. -/
def daysSinceEpoch (y m d : Nat) : Option Nat := do
  if y < 1970 then none
  else
    let cum ← cumMonthDays m
    if d = 0 || d > 31 then none
    else
      some (365 * (y - 1970) + (leapsBefore y - leapsBefore 1970) + cum +
        (if isLeapYear y && m > 2 then 1 else 0) + (d - 1))

/-- Parses the `HH:MM` or `HH:MM:SS` core of a time-of-day. -/
def parseTimeOfDay (cs : List Char) : Option (Nat × Nat × Nat) := do
  match splitOnChar ':' cs with
  | [hs, ms] => do
    let h ← digitsToNat hs
    let mi ← digitsToNat ms
    some (h, mi, 0)
  | [hs, ms, ss] => do
    let h ← digitsToNat hs
    let mi ← digitsToNat ms
    let s ← digitsToNat ss
    some (h, mi, s)
  | _ => none

/-- Modelled from the spec: parses a UTC ISO 8601 datetime such as
`2014-01-10T20:00Z` or `2013-12-04T15:35:53Z` into seconds since the
Unix epoch.  Only the `Z` (UTC) timezone designator occurs in the
stored schedules. -/
def parseDatetimeL (cs : List Char) : Option ℚ := do
  match splitOnChar 'T' cs with
  | [ds, ts] => do
    match splitOnChar '-' ds with
    | [ys, ms, dds] => do
      let y ← digitsToNat ys
      let m ← digitsToNat ms
      let d ← digitsToNat dds
      match ts.reverse with
      | 'Z' :: tcore => do
        let (h, mi, s) ← parseTimeOfDay tcore.reverse
        if h ≥ 24 || mi ≥ 60 || s ≥ 60 then none
        else do
          let days ← daysSinceEpoch y m d
          some ((days * 86400 + h * 3600 + mi * 60 + s : Nat) : ℚ)
      | _ => none
    | _ => none
  | _ => none

/-- Modelled from the spec (the missing `pulp.common.dateutils`
`parse_iso8601_interval`): parses `[R<n>/][<start>/]<period>` into
`(repeat count, optional anchor timestamp, period seconds)`.  Absence of
the `R<n>/` component means an unbounded schedule; absence of the start
means "anchor at parse time". -/
def parse_iso8601_interval (s : String) : Option (Option Nat × Option ℚ × ℚ) :=
  match splitOnChar '/' s.data with
  | [p1] => (parseDurationL p1).map (fun d => (none, none, d))
  | [p1, p2] =>
    match p1 with
    | 'R' :: ds => do
      let n ← digitsToNat ds
      let d ← parseDurationL p2
      some (some n, none, d)
    | _ => do
      let a ← parseDatetimeL p1
      let d ← parseDurationL p2
      some (none, some a, d)
  | [p1, p2, p3] =>
    match p1 with
    | 'R' :: ds => do
      let n ← digitsToNat ds
      let a ← parseDatetimeL p2
      let d ← parseDurationL p3
      some (some n, some a, d)
    | _ => none
  | _ => none

/-- Modelled from the spec: semantic content of the pickled
`celery.schedules.schedule` blob the code stores — the period between
runs in seconds and the `relative` flag (always false for pulp
schedules). -/
structure CelerySchedule where
  run_every : ℚ
  relative : Bool
deriving DecidableEq

/-- Modelled from the spec: the persisted Schedule Record
(`ScheduledCall`).  One entity per recurring job definition; fields are
exactly the keys of the stored document (the tests' `SCHEDULE` fixture).
`first_run` is the anchor of the recurrence grid. -/
structure ScheduledCall where
  id : String
  task : String
  args : List String
  kwargs : List (String × String)
  iso_schedule : String
  first_run : ℚ
  last_run_at : Option ℚ
  total_run_count : ℤ
  remaining_runs : Option ℤ
  enabled : Bool
  consecutive_failures : ℤ
  failure_threshold : Option ℤ
  resource : Option String
  principal : String
  last_updated : ℚ
  schedule : CelerySchedule
deriving DecidableEq

/-- The period of a schedule, taken from its celery schedule value. -/
def ScheduledCall.period (c : ScheduledCall) : ℚ :=
  c.schedule.run_every

/-- Modelled from the spec: `elapsed_periods` of the recurrence
calculator — the count of full periods completed since the anchor;
`0` when the anchor is now or in the future. -/
def elapsedPeriods (anchor period now : ℚ) : ℤ :=
  if now - anchor ≤ 0 then 0 else ⌊(now - anchor) / period⌋

/-- Modelled from the spec: `last_boundary` — the most recent grid
instant at or before `now` (the anchor itself when no full period has
elapsed).  This is element 4 (0-based) of `_calculate_times`, the
`last_scheduled_run_s` value the unit tests pin to
`1389305700 = anchor + 5*3600`. -/
def lastBoundary (anchor period now : ℚ) : ℚ :=
  anchor + elapsedPeriods anchor period now * period

/-- Modelled from the spec: `next_boundary` — the anchor itself while
no full period has elapsed (including a future anchor), otherwise one
period past the last boundary. -/
def nextBoundary (anchor period now : ℚ) : ℚ :=
  if elapsedPeriods anchor period now = 0 then anchor
  else lastBoundary anchor period now + period

/-- Modelled from the spec: `expected_fire_count` — the number of fires
(counting the anchor fire as the first) that should have occurred by
`now`; `0` when the anchor is in the future. -/
def expectedFireCount (anchor period now : ℚ) : ℤ :=
  if now - anchor < 0 then 0 else elapsedPeriods anchor period now + 1

/-- Modelled from the spec and the unit tests of `_calculate_times`:
returns `(now_s, first_run_s, since_first_s, run_every_s,
last_scheduled_run_s, expected_runs)`.  The tests pin the sixth element
to the clamped count of full elapsed periods (`5` after 5h27m of an
hourly schedule, `0` for a future or just-created anchor). -/
def calculateTimes (c : ScheduledCall) (now : ℚ) : ℚ × ℚ × ℚ × ℚ × ℚ × ℤ :=
  (now, c.first_run, now - c.first_run, c.period,
    lastBoundary c.first_run c.period now,
    elapsedPeriods c.first_run c.period now)

/-- Modelled from the spec: the schedule entry due check.  For a future
anchor the entry is not due and the wait is `anchor - now`.  Otherwise
the entry is due exactly when the recorded fire count lags the count the
grid calls for, and the wait runs to one period past the last boundary
(the unit tests pin this wait to `1442` seconds at
`now = 1389389758` for the hourly schedule anchored at `1389384000`,
and to one full period for a just-created schedule).  A disabled entry,
or one with zero remaining runs, is never due. -/
def isDue (c : ScheduledCall) (now : ℚ) : Bool × ℚ :=
  let since := now - c.first_run
  let raw :=
    if since < 0 then ((false : Bool), -since)
    else
      (decide (c.total_run_count < expectedFireCount c.first_run c.period now),
        lastBoundary c.first_run c.period now + c.period - now)
  if c.enabled = false ∨ c.remaining_runs = some 0 then ((false : Bool), raw.2)
  else raw

/-- Modelled from the spec: `calculate_next_run` returns the next
boundary of the periodic grid — the anchor itself while the anchor is
in the future or not yet one period old, one period past the last
boundary otherwise.  It never consults `last_run_at`. -/
def calculate_next_run (c : ScheduledCall) (now : ℚ) : ℚ :=
  nextBoundary c.first_run c.period now

/-- Modelled from the spec: the `ScheduleEntry` adapter view handed to
the external polling scheduler.  `last_run_at` of a never-fired
schedule defaults to the view creation instant (celery computes the
default), so building the view is total. -/
structure ScheduleEntry where
  name : String
  task : String
  args : List String
  kwargs : List (String × String)
  last_run_at : ℚ
  total_run_count : ℤ
  scheduled_call : ScheduledCall
deriving DecidableEq

/-- Modelled from the spec: `as_schedule_entry` — wraps a Schedule
Record as a Schedule Entry.  `now` is the view creation instant used to
default `last_run_at` for a never-fired schedule. -/
def asScheduleEntry (c : ScheduledCall) (now : ℚ) : ScheduleEntry :=
  { name := c.id
    task := c.task
    args := c.args
    kwargs := c.kwargs
    last_run_at := c.last_run_at.getD now
    total_run_count := c.total_run_count
    scheduled_call := c }

/-- Modelled from the spec: the record-level effect of one advance —
`last_run_at := now`, the fire count grows by one, a bounded
`remaining_runs` shrinks by one, and the schedule is disabled in the
same step when the bound reaches zero. -/
def advanceCall (c : ScheduledCall) (now : ℚ) : ScheduledCall :=
  let newRemaining := c.remaining_runs.map (fun n => n - 1)
  { c with
    last_run_at := some now
    total_run_count := c.total_run_count + 1
    remaining_runs := newRemaining
    enabled := if newRemaining = some 0 then false else c.enabled }

/-- Result of one advance: the fresh entry view, the updated record,
and the list of records persisted (one `save` per advance). -/
structure AdvanceResult where
  entry : ScheduleEntry
  call : ScheduledCall
  saved : List ScheduledCall

/-- Modelled from the spec: `advance` (`next(entry)` / `__next__`) —
applies the record-level effect, persists the updated record exactly
once, and returns a fresh entry view of the updated record. -/
def advance (e : ScheduleEntry) (now : ℚ) : AdvanceResult :=
  let c2 := advanceCall e.scheduled_call now
  { entry := asScheduleEntry c2 now
    call := c2
    saved := [c2] }

/-- Modelled from the spec: creation of a Schedule Record from fresh
user input (`ScheduledCall.__init__`).  The recurrence expression is
parsed; a passed-in `first_run` wins over the expression's anchor,
which wins over the creation instant `now`; a passed-in
`remaining_runs` wins over the expression's repeat count; a repeat
count absent from both means unbounded.  Fails exactly when the
expression does not parse. -/
def mkScheduledCall (iso_schedule task id : String) (now : ℚ)
    (first_runOpt : Option ℚ) (remainingOpt : Option ℤ)
    (total_run_count : ℤ) (last_run_at : Option ℚ)
    (enabled : Bool) : Option ScheduledCall :=
  match parse_iso8601_interval iso_schedule with
  | none => none
  | some (rep, anchorOpt, per) => some
    { id := id
      task := task
      args := []
      kwargs := []
      iso_schedule := iso_schedule
      first_run := first_runOpt.getD (anchorOpt.getD now)
      last_run_at := last_run_at
      total_run_count := total_run_count
      remaining_runs := remainingOpt <|> rep.map Int.ofNat
      enabled := enabled
      consecutive_failures := 0
      failure_threshold := none
      resource := none
      principal := ""
      last_updated := now
      schedule := { run_every := per, relative := false } }

/-- Values of the generic key/value document representation used by the
persistence round-trip (`as_dict` / `from_db`). -/
inductive Value where
  | str : String → Value
  | rat : ℚ → Value
  | int : ℤ → Value
  | bool : Bool → Value
  | null : Value
  | strlist : List String → Value
  | dict : List (String × String) → Value
  | sched : ℚ → Bool → Value
deriving DecidableEq

/-- Document value of an optional integer field. -/
def Value.ofOptInt : Option ℤ → Value
  | some n => Value.int n
  | none => Value.null

/-- Document value of an optional timestamp field. -/
def Value.ofOptRat : Option ℚ → Value
  | some q => Value.rat q
  | none => Value.null

/-- Document value of an optional string field. -/
def Value.ofOptStr : Option String → Value
  | some s => Value.str s
  | none => Value.null

/-- Modelled from the spec and the `as_dict` unit tests: the document
representation of a Schedule Record.  It carries every persisted field
keyed as in the stored document, plus the derived `next_run` (the tests
assert `next_run` is present, and `save` persists this document). -/
def as_dict (c : ScheduledCall) (now : ℚ) : List (String × Value) :=
  [("_id", Value.str c.id),
   ("args", Value.strlist c.args),
   ("consecutive_failures", Value.int c.consecutive_failures),
   ("enabled", Value.bool c.enabled),
   ("failure_threshold", Value.ofOptInt c.failure_threshold),
   ("first_run", Value.rat c.first_run),
   ("iso_schedule", Value.str c.iso_schedule),
   ("kwargs", Value.dict c.kwargs),
   ("last_run_at", Value.ofOptRat c.last_run_at),
   ("last_updated", Value.rat c.last_updated),
   ("next_run", Value.rat (calculate_next_run c now)),
   ("principal", Value.str c.principal),
   ("remaining_runs", Value.ofOptInt c.remaining_runs),
   ("resource", Value.ofOptStr c.resource),
   ("schedule", Value.sched c.schedule.run_every c.schedule.relative),
   ("task", Value.str c.task),
   ("total_run_count", Value.int c.total_run_count)]

/-- The keys of the persisted Schedule Record document (the tests'
`SCHEDULE` fixture). -/
def persistedFields : List String :=
  ["_id", "args", "consecutive_failures", "enabled", "failure_threshold",
   "first_run", "iso_schedule", "kwargs", "last_run_at", "last_updated",
   "principal", "remaining_runs", "resource", "schedule", "task",
   "total_run_count"]

/-- Modelled from the spec: the document `save` sends on the update path
for an existing record — `as_dict` minus the `_id` key. -/
def saveUpdateDoc (c : ScheduledCall) (now : ℚ) : List (String × Value) :=
  (as_dict c now).filter (fun kv => !(kv.fst == "_id"))

/-- Modelled from the spec: a stored schedule document as loaded from
the database — the persisted fields of §3, with `idField` standing for
the document's `_id` key (absent only for corrupt records). -/
structure RawSchedule where
  idField : Option String
  args : List String
  consecutive_failures : ℤ
  enabled : Bool
  failure_threshold : Option ℤ
  first_run : ℚ
  iso_schedule : String
  kwargs : List (String × String)
  last_run_at : Option ℚ
  last_updated : ℚ
  principal : String
  remaining_runs : Option ℤ
  resource : Option String
  schedule : CelerySchedule
  task : String
  total_run_count : ℤ
deriving DecidableEq

/-- The Schedule Record reconstructed from a stored document whose
`_id` is `i`: every persisted field is taken over unchanged. -/
def recordOfRaw (raw : RawSchedule) (i : String) : ScheduledCall :=
  { id := i
    task := raw.task
    args := raw.args
    kwargs := raw.kwargs
    iso_schedule := raw.iso_schedule
    first_run := raw.first_run
    last_run_at := raw.last_run_at
    total_run_count := raw.total_run_count
    remaining_runs := raw.remaining_runs
    enabled := raw.enabled
    consecutive_failures := raw.consecutive_failures
    failure_threshold := raw.failure_threshold
    resource := raw.resource
    principal := raw.principal
    last_updated := raw.last_updated
    schedule := raw.schedule }

/-- Modelled from the spec: `from_db` — reconstructs a Schedule Record
from a stored document; a document without an `_id` is corrupt
(`CorruptScheduleRecord`) and yields no record. -/
def from_db (raw : RawSchedule) : Option ScheduledCall :=
  match raw.idField with
  | none => none
  | some i => some (recordOfRaw raw i)

/-- Mocked current time of the `_calculate_times` unit tests,
`1389307330.966561` seconds since the epoch. -/
def nowCalcTimes : ℚ :=
  (1389307330966561 : ℚ) / 1000000

/-- Mocked current time of the `calculate_next_run` past-runs unit test,
`1389389758.547976` seconds since the epoch. -/
def nowNextRun : ℚ :=
  (1389389758547976 : ℚ) / 1000000

/-- The tests' hourly schedule anchored at 2014-01-10T20:00:00Z (epoch
1389384000) that fired once, at the anchor, and is overdue at
2014-01-10T21:35:58Z. -/
def callPastDue : ScheduledCall :=
  { id := "schedule1"
    task := "pulp.tasks.dosomething"
    args := []
    kwargs := []
    iso_schedule := "2014-01-10T20:00Z/PT1H"
    first_run := 1389384000
    last_run_at := some 1389384000
    total_run_count := 1
    remaining_runs := none
    enabled := true
    consecutive_failures := 0
    failure_threshold := none
    resource := none
    principal := ""
    last_updated := 1389389758
    schedule := { run_every := 3600, relative := false } }

/-- The same hourly schedule after it also fired at 21:00 (epoch
1389387600): two runs recorded, up to date. -/
def callPastNotDue : ScheduledCall :=
  { callPastDue with
    total_run_count := 2
    last_run_at := some 1389387600 }

/-- An hourly schedule created at 2014-01-10T21:35:58Z with no explicit
anchor: its anchor is the creation instant and it has never fired. -/
def callFresh : ScheduledCall :=
  { id := "schedule3"
    task := "pulp.tasks.dosomething"
    args := []
    kwargs := []
    iso_schedule := "PT1H"
    first_run := 1389389758
    last_run_at := none
    total_run_count := 0
    remaining_runs := none
    enabled := true
    consecutive_failures := 0
    failure_threshold := none
    resource := none
    principal := ""
    last_updated := 1389389758
    schedule := { run_every := 3600, relative := false } }

/-- The tests' hourly schedule anchored in the future at
2014-01-19T17:15:00Z (epoch 1390151700) with 5 runs remaining, never
fired, evaluated at epoch 1389307330. -/
def callFuture : ScheduledCall :=
  { id := "schedule4"
    task := "pulp.tasks.dosomething"
    args := []
    kwargs := []
    iso_schedule := "2014-01-19T17:15Z/PT1H"
    first_run := 1390151700
    last_run_at := none
    total_run_count := 0
    remaining_runs := some 5
    enabled := true
    consecutive_failures := 0
    failure_threshold := none
    resource := none
    principal := ""
    last_updated := 1389307330
    schedule := { run_every := 3600, relative := false } }

/-- The `_calculate_times` tests' hourly schedule anchored at
2014-01-09T17:15:00Z (epoch 1389287700), evaluated at
`nowCalcTimes` — five full periods and part of a sixth elapsed. -/
def callCalcTimes : ScheduledCall :=
  { id := "schedule5"
    task := "pulp.tasks.dosomething"
    args := []
    kwargs := []
    iso_schedule := "2014-01-09T17:15Z/PT1H"
    first_run := 1389287700
    last_run_at := none
    total_run_count := 0
    remaining_runs := none
    enabled := true
    consecutive_failures := 0
    failure_threshold := none
    resource := none
    principal := ""
    last_updated := nowCalcTimes
    schedule := { run_every := 3600, relative := false } }

/-- The record created from the recurrence string `PT1M` at time 0: an
unbounded once-a-minute schedule anchored at creation. -/
def callPT1M : ScheduledCall :=
  { id := "schedule6"
    task := "pulp.tasks.dosomething"
    args := []
    kwargs := []
    iso_schedule := "PT1M"
    first_run := 0
    last_run_at := none
    total_run_count := 0
    remaining_runs := none
    enabled := true
    consecutive_failures := 0
    failure_threshold := none
    resource := none
    principal := ""
    last_updated := 0
    schedule := { run_every := 60, relative := false } }

/-- The record created from the recurrence string `R3/PT1M` at time
12345: three runs remaining, a sixty-second period, anchored at the
creation instant. -/
def callR3PT1M : ScheduledCall :=
  { id := "schedule7"
    task := "pulp.tasks.dosomething"
    args := []
    kwargs := []
    iso_schedule := "R3/PT1M"
    first_run := 12345
    last_run_at := none
    total_run_count := 0
    remaining_runs := some 3
    enabled := true
    consecutive_failures := 0
    failure_threshold := none
    resource := none
    principal := ""
    last_updated := 12345
    schedule := { run_every := 60, relative := false } }

/-- The tests' `SCHEDULE` fixture: a stored once-a-minute publish
schedule with 1087 recorded runs. -/
def rawSample : RawSchedule :=
  { idField := some "529f4bd93de3a31d0ec77338"
    args := ["demo1", "puppet_distributor"]
    consecutive_failures := 0
    enabled := true
    failure_threshold := some 2
    first_run := 1386171353
    iso_schedule := "PT1M"
    kwargs := [("overrides", "")]
    last_run_at := some 1387240553
    last_updated := (1387218569811224 : ℚ) / 1000000
    principal := "pickled-admin-principal"
    remaining_runs := none
    resource := some "pulp:distributor:demo:puppet_distributor"
    schedule := { run_every := 60, relative := false }
    task := "pulp.server.tasks.repository.publish"
    total_run_count := 1087 }

/-- C1 counterexample: for the hourly schedule whose anchor equals the
evaluation instant (the just-created schedule of the tests), `is_due`
reports a wait of one full period (3600 s), while the spec-defined
`next_boundary` is the anchor itself, so `next_boundary - now = 0`.
Hence `seconds_until_next = next_boundary - now` fails. -/
theorem claim1_counterexample :
    ¬ ((isDue callFresh 1389389758).2 =
      nextBoundary callFresh.first_run callFresh.period 1389389758 - 1389389758) := by
  decide

/-- C1 (amended): for every enabled schedule with runs remaining and
`now >= anchor`, the due flag equals
`total_run_count < expected_fire_count` and is independent of
`last_run_at`, and `seconds_until_next = last_boundary + period - now`
(which equals `next_boundary - now` whenever at least one full period
has elapsed, but is `anchor + period - now`, not `anchor - now`, while
`elapsed_periods = 0`).  Concretely, at `now = 1389389758` the hourly
schedule anchored at 1389384000 yields `(true, 1442)` with one recorded
run and `(false, 1442)` with two. -/
theorem claim1_theorem (c : ScheduledCall) (now : ℚ) (l : Option ℚ)
    (henabled : c.enabled = true) (hrem : c.remaining_runs ≠ some 0)
    (hanchor : c.first_run ≤ now) :
    (isDue c now =
      (decide (c.total_run_count < expectedFireCount c.first_run c.period now),
        lastBoundary c.first_run c.period now + c.period - now)
      ∧ isDue { c with last_run_at := l } now = isDue c now)
    ∧ (mkScheduledCall "2014-01-10T20:00Z/PT1H" "pulp.tasks.dosomething" "schedule1"
        1389389758 none none 1 (some 1389384000) true = some callPastDue
      ∧ isDue callPastDue 1389389758 = (true, 1442)
      ∧ isDue callPastNotDue 1389389758 = (false, 1442)) := by
  have hs : ¬ (now - c.first_run < 0) := by
    rw [not_lt, sub_nonneg]
    exact hanchor
  have hgate : ¬ (c.enabled = false ∨ c.remaining_runs = some 0) := by
    simp [henabled, hrem]
  refine ⟨⟨?_, rfl⟩, by decide, by decide, by decide⟩
  simp only [isDue, if_neg hs, if_neg hgate]

/-- C1 witness: the amended law applied to the overdue hourly schedule
of the tests. -/
theorem claim1_witness :
    callPastDue.enabled = true ∧ callPastDue.first_run ≤ 1389389758 ∧
    isDue callPastDue 1389389758 =
      (decide (callPastDue.total_run_count <
        expectedFireCount callPastDue.first_run callPastDue.period 1389389758),
        lastBoundary callPastDue.first_run callPastDue.period 1389389758 +
          callPastDue.period - 1389389758) :=
  ⟨rfl, by decide,
    ((claim1_theorem callPastDue 1389389758 none rfl (by decide) (by decide)).1).1⟩

/-- C3 counterexample: for the schedule whose anchor equals the current
instant, `is_due` reports `seconds_until_next = 3600` (one full
period), not `anchor - now = 0`. -/
theorem claim3_counterexample :
    ¬ ((isDue callFresh 1389389758).2 = callFresh.first_run - 1389389758) := by
  decide

/-- C3 (amended): for every `(anchor, period, now)` with
`now >= anchor` and `elapsed_periods = 0`, the spec-level
`next_boundary` does equal the anchor, but `is_due` reports
`seconds_until_next = anchor + period - now` — in particular one full
period, not 0, for a schedule whose anchor equals the current instant
(the just-created hourly schedule waits 3600 s). -/
theorem claim3_theorem (c : ScheduledCall) (now : ℚ)
    (hanchor : c.first_run ≤ now)
    (helapsed : elapsedPeriods c.first_run c.period now = 0) :
    nextBoundary c.first_run c.period now = c.first_run
    ∧ (isDue c now).2 = c.first_run + c.period - now
    ∧ (isDue callFresh 1389389758).2 = callFresh.period := by
  have hs : ¬ (now - c.first_run < 0) := by
    rw [not_lt, sub_nonneg]
    exact hanchor
  refine ⟨?_, ?_, by decide⟩
  · simp [nextBoundary, helapsed]
  · simp only [isDue, if_neg hs]
    rw [apply_ite Prod.snd]
    simp [lastBoundary, helapsed]

/-- C3 witness: the amended law applied to the just-created hourly
schedule anchored at the evaluation instant. -/
theorem claim3_witness :
    callFresh.first_run ≤ 1389389758 ∧
    elapsedPeriods callFresh.first_run callFresh.period 1389389758 = 0 ∧
    (isDue callFresh 1389389758).2 = callFresh.first_run + callFresh.period - 1389389758 :=
  ⟨by decide, by decide,
    (claim3_theorem callFresh 1389389758 (by decide) (by decide)).2.1⟩

/-- C2: advancing an enabled entry with `N > 0` runs remaining sets
`last_run_at` to the current time, increments `total_run_count` by
exactly 1, decrements `remaining_runs` to `N - 1`, disables the
schedule exactly when the remaining count reaches 0, persists the
updated record with exactly one save, and returns a new entry view
distinct from the prior one but with the same name. -/
theorem claim2_theorem (c : ScheduledCall) (t now : ℚ) (n : ℤ)
    (henabled : c.enabled = true) (hrem : c.remaining_runs = some n)
    (_hn : 0 < n) :
    (advance (asScheduleEntry c t) now).call.last_run_at = some now
    ∧ (advance (asScheduleEntry c t) now).call.total_run_count = c.total_run_count + 1
    ∧ (advance (asScheduleEntry c t) now).call.remaining_runs = some (n - 1)
    ∧ ((advance (asScheduleEntry c t) now).call.enabled = false ↔ n = 1)
    ∧ (advance (asScheduleEntry c t) now).saved = [(advance (asScheduleEntry c t) now).call]
    ∧ (advance (asScheduleEntry c t) now).saved.length = 1
    ∧ (advance (asScheduleEntry c t) now).entry ≠ asScheduleEntry c t
    ∧ (advance (asScheduleEntry c t) now).entry.name = (asScheduleEntry c t).name := by
  refine ⟨?_, rfl, ?_, ?_, rfl, rfl, ?_, rfl⟩
  · rfl
  · simp [advance, advanceCall, asScheduleEntry, hrem]
  · by_cases h1 : n = 1
    · simp [advance, advanceCall, asScheduleEntry, hrem, h1]
    · simp [advance, advanceCall, asScheduleEntry, hrem, h1, henabled, sub_eq_zero]
  · intro hcontra
    have hc := congrArg ScheduleEntry.total_run_count hcontra
    simp [advance, advanceCall, asScheduleEntry] at hc

/-- C2 witness: advancing the tests' future-anchored entry with 5 runs
remaining. -/
theorem claim2_witness :
    callFuture.enabled = true ∧ callFuture.remaining_runs = some 5 ∧ (0 : ℤ) < 5
    ∧ (advance (asScheduleEntry callFuture 1389307330) 1389400000).call.remaining_runs
        = some (5 - 1)
    ∧ (advance (asScheduleEntry callFuture 1389307330) 1389400000).entry
        ≠ asScheduleEntry callFuture 1389307330 :=
  ⟨rfl, rfl, by decide,
    (claim2_theorem callFuture 1389307330 1389400000 5 rfl rfl (by decide)).2.2.1,
    (claim2_theorem callFuture 1389307330 1389400000 5 rfl rfl (by decide)).2.2.2.2.2.2.1⟩

/-- C4 counterexample: at the tests' pinned input (hourly schedule
anchored at epoch 1389287700, evaluated at epoch 1389307330.966561,
five full periods elapsed) the sixth element of `_calculate_times` is
5, not `floor(since_anchor / period) + 1 = 6`. -/
theorem claim4_counterexample :
    ¬ ((calculateTimes callCalcTimes nowCalcTimes).2.2.2.2.2 =
      ⌊(nowCalcTimes - callCalcTimes.first_run) / callCalcTimes.period⌋ + 1) := by
  decide

/-- C4 (amended): the sixth element of `_calculate_times` equals
`max(floor(since_anchor / period), 0)` — the elapsed-period count
without the extra `+ 1`; it is 5 at the tests' pinned input and 0 for a
schedule created at `now` with no explicit anchor. -/
theorem claim4_theorem (c : ScheduledCall) (now : ℚ) (hper : 0 < c.period) :
    (calculateTimes c now).2.2.2.2.2 = max ⌊(now - c.first_run) / c.period⌋ 0
    ∧ (calculateTimes callCalcTimes nowCalcTimes).2.2.2.2.2 = 5
    ∧ (calculateTimes callFresh 1389389758).2.2.2.2.2 = 0 := by
  refine ⟨?_, by decide, by decide⟩
  have heq : (calculateTimes c now).2.2.2.2.2 = elapsedPeriods c.first_run c.period now := rfl
  rw [heq]
  unfold elapsedPeriods
  by_cases h : now - c.first_run ≤ 0
  · rw [if_pos h]
    have h2 : (now - c.first_run) / c.period ≤ 0 :=
      div_nonpos_of_nonpos_of_nonneg h hper.le
    have h3 : ⌊(now - c.first_run) / c.period⌋ ≤ 0 := by
      calc ⌊(now - c.first_run) / c.period⌋ ≤ ⌊(0 : ℚ)⌋ := Int.floor_le_floor h2
        _ = 0 := Int.floor_zero
    exact (max_eq_right h3).symm
  · rw [if_neg h]
    push_neg at h
    have h2 : 0 ≤ (now - c.first_run) / c.period := div_nonneg h.le hper.le
    have h3 : 0 ≤ ⌊(now - c.first_run) / c.period⌋ := Int.floor_nonneg.mpr h2
    exact (max_eq_left h3).symm

/-- C4 witness: the amended law applied to the tests' pinned
`_calculate_times` input. -/
theorem claim4_witness :
    (0 : ℚ) < callCalcTimes.period ∧
    (calculateTimes callCalcTimes nowCalcTimes).2.2.2.2.2 =
      max ⌊(nowCalcTimes - callCalcTimes.first_run) / callCalcTimes.period⌋ 0 :=
  ⟨by decide, (claim4_theorem callCalcTimes nowCalcTimes (by decide)).1⟩

/-- C5 counterexample: `as_dict` of a schedule contains the key
`next_run`, so the storage serialization does not exclude the derived
`next_run` value. -/
theorem claim5_counterexample :
    "next_run" ∈ (as_dict callFresh 1389389758).map Prod.fst := by
  decide

/-- C5 (amended): `as_dict` includes every persisted Schedule Record
field and additionally the derived `next_run`, and the document `save`
persists on the update path is exactly `as_dict` minus the `_id` key —
so `next_run` is persisted too, not excluded. -/
theorem claim5_theorem (c : ScheduledCall) (now : ℚ) :
    (∀ k, k ∈ persistedFields → k ∈ (as_dict c now).map Prod.fst)
    ∧ "next_run" ∈ (as_dict c now).map Prod.fst
    ∧ "next_run" ∈ (saveUpdateDoc c now).map Prod.fst
    ∧ (saveUpdateDoc c now).map Prod.fst =
        ((as_dict c now).map Prod.fst).filter (fun k => !(k == "_id")) := by
  have hkeys : (as_dict c now).map Prod.fst =
      ["_id", "args", "consecutive_failures", "enabled", "failure_threshold",
       "first_run", "iso_schedule", "kwargs", "last_run_at", "last_updated",
       "next_run", "principal", "remaining_runs", "resource", "schedule",
       "task", "total_run_count"] := rfl
  have hskeys : (saveUpdateDoc c now).map Prod.fst =
      ["args", "consecutive_failures", "enabled", "failure_threshold",
       "first_run", "iso_schedule", "kwargs", "last_run_at", "last_updated",
       "next_run", "principal", "remaining_runs", "resource", "schedule",
       "task", "total_run_count"] := rfl
  refine ⟨?_, ?_, ?_, ?_⟩
  · rw [hkeys]
    decide
  · rw [hkeys]
    decide
  · rw [hskeys]
    decide
  · rw [hkeys, hskeys]
    decide

/-- C5 witness: the persisted field `task` appears among the `as_dict`
keys of the just-created schedule. -/
theorem claim5_witness :
    "task" ∈ persistedFields ∧ "task" ∈ (as_dict callFresh 0).map Prod.fst :=
  ⟨by decide, (claim5_theorem callFresh 0).1 "task" (by decide)⟩

/-- C6: `calculate_next_run` returns the next boundary of the periodic
grid, not a value derived from `last_run_at`: for every schedule whose
anchor lies in the future it returns the anchor itself, it is invariant
under changes to `last_run_at`, and for the hourly schedule anchored at
epoch 1389384000 with two recorded runs, evaluated at epoch
1389389758.547976, it returns epoch 1389391200 (2014-01-10T22:00:00Z). -/
theorem claim6_theorem (c : ScheduledCall) (l : Option ℚ) (now : ℚ)
    (hfuture : now < c.first_run) :
    calculate_next_run c now = c.first_run
    ∧ calculate_next_run { c with last_run_at := l } now = calculate_next_run c now
    ∧ calculate_next_run callPastNotDue nowNextRun = 1389391200 := by
  refine ⟨?_, rfl, by decide⟩
  have h0 : elapsedPeriods c.first_run c.period now = 0 := by
    unfold elapsedPeriods
    rw [if_pos (sub_nonpos.mpr hfuture.le)]
  simp [calculate_next_run, nextBoundary, h0]

/-- C6 witness: the future-anchored schedule's next run is its anchor. -/
theorem claim6_witness :
    (1389307330 : ℚ) < callFuture.first_run ∧
    calculate_next_run callFuture 1389307330 = callFuture.first_run :=
  ⟨by decide, (claim6_theorem callFuture none 1389307330 (by decide)).1⟩

/-- C7: for every schedule whose anchor is in the future relative to
`now`, `is_due` returns `(false, anchor - now)`; concretely 844370
seconds for the anchor at epoch 1390151700 evaluated at epoch
1389307330. -/
theorem claim7_theorem (c : ScheduledCall) (now : ℚ)
    (hfuture : now < c.first_run) :
    isDue c now = ((false : Bool), c.first_run - now)
    ∧ isDue callFuture 1389307330 = ((false : Bool), 844370) := by
  refine ⟨?_, by decide⟩
  have hs : now - c.first_run < 0 := sub_neg.mpr hfuture
  simp only [isDue, if_pos hs]
  rw [ite_self, neg_sub]

/-- C7 witness: the future-anchored schedule of the tests is not due
and waits exactly `anchor - now` seconds. -/
theorem claim7_witness :
    (1389307330 : ℚ) < callFuture.first_run ∧
    isDue callFuture 1389307330 = ((false : Bool), callFuture.first_run - 1389307330) :=
  ⟨by decide, (claim7_theorem callFuture 1389307330 (by decide)).1⟩

/-- C8: for every stored document with an `_id`, `from_db` yields a
Schedule Record whose `id` equals that `_id` and whose `as_dict`
serialization reproduces every field of the document exactly, field for
field. -/
theorem claim8_theorem (raw : RawSchedule) (i : String) (now : ℚ)
    (hid : raw.idField = some i) :
    from_db raw = some (recordOfRaw raw i)
    ∧ (recordOfRaw raw i).id = i
    ∧ (as_dict (recordOfRaw raw i) now).lookup "_id" = some (Value.str i)
    ∧ (as_dict (recordOfRaw raw i) now).lookup "args" = some (Value.strlist raw.args)
    ∧ (as_dict (recordOfRaw raw i) now).lookup "consecutive_failures"
        = some (Value.int raw.consecutive_failures)
    ∧ (as_dict (recordOfRaw raw i) now).lookup "enabled" = some (Value.bool raw.enabled)
    ∧ (as_dict (recordOfRaw raw i) now).lookup "failure_threshold"
        = some (Value.ofOptInt raw.failure_threshold)
    ∧ (as_dict (recordOfRaw raw i) now).lookup "first_run" = some (Value.rat raw.first_run)
    ∧ (as_dict (recordOfRaw raw i) now).lookup "iso_schedule"
        = some (Value.str raw.iso_schedule)
    ∧ (as_dict (recordOfRaw raw i) now).lookup "kwargs" = some (Value.dict raw.kwargs)
    ∧ (as_dict (recordOfRaw raw i) now).lookup "last_run_at"
        = some (Value.ofOptRat raw.last_run_at)
    ∧ (as_dict (recordOfRaw raw i) now).lookup "last_updated"
        = some (Value.rat raw.last_updated)
    ∧ (as_dict (recordOfRaw raw i) now).lookup "principal"
        = some (Value.str raw.principal)
    ∧ (as_dict (recordOfRaw raw i) now).lookup "remaining_runs"
        = some (Value.ofOptInt raw.remaining_runs)
    ∧ (as_dict (recordOfRaw raw i) now).lookup "resource"
        = some (Value.ofOptStr raw.resource)
    ∧ (as_dict (recordOfRaw raw i) now).lookup "schedule"
        = some (Value.sched raw.schedule.run_every raw.schedule.relative)
    ∧ (as_dict (recordOfRaw raw i) now).lookup "task" = some (Value.str raw.task)
    ∧ (as_dict (recordOfRaw raw i) now).lookup "total_run_count"
        = some (Value.int raw.total_run_count) := by
  refine ⟨?_, rfl, rfl, rfl, rfl, rfl, rfl, rfl, rfl, rfl, rfl, rfl, rfl, rfl, rfl,
    rfl, rfl, rfl⟩
  simp [from_db, hid]

/-- C8 witness: loading the tests' `SCHEDULE` fixture preserves its id
and `as_dict` reproduces its fields. -/
theorem claim8_witness :
    rawSample.idField = some "529f4bd93de3a31d0ec77338"
    ∧ from_db rawSample = some (recordOfRaw rawSample "529f4bd93de3a31d0ec77338")
    ∧ (as_dict (recordOfRaw rawSample "529f4bd93de3a31d0ec77338") 0).lookup "args"
        = some (Value.strlist rawSample.args) :=
  ⟨rfl,
    (claim8_theorem rawSample "529f4bd93de3a31d0ec77338" 0 rfl).1,
    (claim8_theorem rawSample "529f4bd93de3a31d0ec77338" 0 rfl).2.2.2.1⟩

/-- C9: the recurrence string `R3/PT1M` yields a schedule with
`remaining_runs = 3`, a period of exactly 60 seconds, and `first_run`
equal to the parse-time `now`; and for every recurrence string whose
parse carries no `R<n>/` repeat component, a schedule created without
an explicit `remaining_runs` has `remaining_runs = none` (unbounded). -/
theorem claim9_theorem (s task i : String) (now : ℚ) (aOpt : Option ℚ) (per : ℚ)
    (c : ScheduledCall)
    (hparse : parse_iso8601_interval s = some (none, aOpt, per))
    (hmk : mkScheduledCall s task i now none none 0 none true = some c) :
    c.remaining_runs = none
    ∧ (mkScheduledCall "R3/PT1M" "pulp.tasks.dosomething" "schedule7" 12345
        none none 0 none true = some callR3PT1M
      ∧ callR3PT1M.remaining_runs = some 3
      ∧ callR3PT1M.schedule.run_every = 60
      ∧ callR3PT1M.first_run = 12345) := by
  refine ⟨?_, by decide, rfl, rfl, rfl⟩
  simp only [mkScheduledCall, hparse, Option.some.injEq] at hmk
  rw [← hmk]
  rfl

/-- C9 witness: the string `PT1M` has no repeat component and the
schedule created from it is unbounded. -/
theorem claim9_witness :
    parse_iso8601_interval "PT1M" = some (none, none, 60)
    ∧ mkScheduledCall "PT1M" "pulp.tasks.dosomething" "schedule6" 0 none none 0 none true
        = some callPT1M
    ∧ callPT1M.remaining_runs = none :=
  ⟨by decide, by decide,
    ( claim9_theorem "PT1M" "pulp.tasks.dosomething" "schedule6" 0 none 60 callPT1M
      (by decide) (by decide)).1⟩

/-- C10: for every schedule that has never fired (`last_run_at`
absent), the entry view is still produced in full — a total
construction — and its `last_run_at` is the concrete view-creation
instant, never a missing-field error. -/
theorem claim10_theorem (c : ScheduledCall) (now : ℚ)
    (h : c.last_run_at = none) :
    asScheduleEntry c now =
      { name := c.id
        task := c.task
        args := c.args
        kwargs := c.kwargs
        last_run_at := now
        total_run_count := c.total_run_count
        scheduled_call := c }
    ∧ (asScheduleEntry c now).last_run_at = now := by
  refine ⟨?_, ?_⟩ <;> simp [asScheduleEntry, h]

/-- C10 witness: the never-fired just-created schedule still yields an
entry whose `last_run_at` is the view-creation instant. -/
theorem claim10_witness :
    callFresh.last_run_at = none
    ∧ (asScheduleEntry callFresh 1389389758).last_run_at = 1389389758 :=
  ⟨rfl, (claim10_theorem callFresh 1389389758 rfl).2⟩

end Pulp
